import Mathlib

/-!
Verification development for the Gibber post router
(`src/server/api/routers/post.ts`): a shallow embedding of the data model,
the interaction-annotation pipeline (`computeInteractions`), the post-write
transaction (`postRouter.create`), the profile query
(`postRouter.getByProfileId`) and presigned-URL issuance
(`postRouter.createPresignedUrls`), together with theorems settling the
specification's testable properties.
-/

namespace Gibber

/-! ## Data model

Rows of the relational store, translated from the Prisma schema as used by
the post router.  `createdAt` timestamps and byte sizes are natural numbers;
nullable columns are `Option`. -/

structure PostRow where
  id : String
  profileId : String
  content : Option String
  inReplyToId : Option String
  reblogId : Option String
  repliesCount : Nat
  reblogsCount : Nat
  createdAt : Nat
deriving DecidableEq, Repr

structure FileRow where
  id : String
  ftype : String
  url : String
  mime : String
  extension : String
  name : String
  size : Nat
  width : Nat
  height : Nat
deriving DecidableEq, Repr

structure AttachmentRow where
  postId : String
  fileId : String
deriving DecidableEq, Repr

structure FavoriteRow where
  profileId : String
  postId : String
deriving DecidableEq, Repr

structure ProfileRow where
  id : String
  userId : String
deriving DecidableEq, Repr

structure FollowRow where
  followerId : String
  followedId : String
deriving DecidableEq, Repr

structure Db where
  posts : List PostRow
  files : List FileRow
  attachments : List AttachmentRow
  favorites : List FavoriteRow
  profiles : List ProfileRow
  follows : List FollowRow
deriving DecidableEq, Repr

/-! ## Hydrated posts

`postInclude` produces a post together with its (one-level) reblog target.
The nested target carries the target row's scalar fields but no further
nested reblog of its own. -/

structure NestedPost where
  id : String
  profileId : String
  content : Option String
  reblogId : Option String
  repliesCount : Nat
  reblogsCount : Nat
  createdAt : Nat
deriving DecidableEq, Repr

structure HPost where
  id : String
  profileId : String
  content : Option String
  inReplyToId : Option String
  reblogId : Option String
  repliesCount : Nat
  reblogsCount : Nat
  createdAt : Nat
  reblog : Option NestedPost
deriving DecidableEq, Repr

def toNested (p : PostRow) : NestedPost :=
  { id := p.id
    profileId := p.profileId
    content := p.content
    reblogId := p.reblogId
    repliesCount := p.repliesCount
    reblogsCount := p.reblogsCount
    createdAt := p.createdAt }

/-- Hydration with `postInclude`: the `reblog` relation joins on `reblogId`. -/
def hydrate (db : Db) (p : PostRow) : HPost :=
  { id := p.id
    profileId := p.profileId
    content := p.content
    inReplyToId := p.inReplyToId
    reblogId := p.reblogId
    repliesCount := p.repliesCount
    reblogsCount := p.reblogsCount
    createdAt := p.createdAt
    reblog := p.reblogId.bind fun rid =>
      (db.posts.find? fun q => q.id == rid).map toNested }

/-! ## Interaction annotation pipeline (`computeInteractions`)

The output shape `WithInteractions<Post>`: the two flags, the base post, and
an optional annotated nested reblog whose own nested slot is always `null`. -/

structure AnnotatedNested where
  isReblogged : Bool
  isFavorited : Bool
  reblog : Option NestedPost
  post : NestedPost
deriving DecidableEq, Repr

structure AnnotatedPost where
  isReblogged : Bool
  isFavorited : Bool
  post : HPost
  reblog : Option AnnotatedNested
deriving DecidableEq, Repr

/-- The first bulk query of `computeInteractions`:
`prisma.post.findMany({ where: { profileId, content: null, NOT: { reblogId:
null } } })`, mapped to the `reblogId` values.  A `none` viewer id models the
Prisma treatment of an `undefined` filter value: the `profileId` condition is
dropped from the `where` clause. -/
def viewerReblogIds (db : Db) (profileId : Option String) : List String :=
  (db.posts.filter fun p =>
    (match profileId with
     | some pid => p.profileId == pid
     | none => true)
    && p.content == none && !(p.reblogId == none)).filterMap (·.reblogId)

/-- The second bulk query of `computeInteractions`:
`prisma.favorite.findMany({ where: { profileId } })`, mapped to the `postId`
values; `none` again drops the condition. -/
def viewerFavoritePostIds (db : Db) (profileId : Option String) : List String :=
  (db.favorites.filter fun f =>
    match profileId with
    | some pid => f.profileId == pid
    | none => true).map (·.postId)

/-- The body of the map inside `computeInteractions`: attach the two
membership flags to a post and, when a nested reblog target is present, the
same two flags (computed for the target's id) to the nested object, whose
own nested slot is `null`. -/
def annotatePost (reblogIds favoriteIds : List String) (post : HPost) :
    AnnotatedPost :=
  let reblog : Option AnnotatedNested := post.reblog.map fun n =>
    { isReblogged := reblogIds.contains n.id
      isFavorited := favoriteIds.contains n.id
      reblog := none
      post := n }
  { isReblogged := reblogIds.contains post.id
    isFavorited := favoriteIds.contains post.id
    post := post
    reblog := reblog }

/-- `computeInteractions`: two bulk lookups, then a map over the input
posts. -/
def computeInteractions (db : Db) (profileId : Option String)
    (posts : List HPost) : List AnnotatedPost :=
  posts.map
    (annotatePost (viewerReblogIds db profileId) (viewerFavoritePostIds db profileId))

/-! ## External collaborators

Object store, image probe, id generation and URL signing, modelled as an
explicit environment.  `freshId` is the uuid supply (indexed by a counter
threaded through the computation); `probe` maps an object body to the probe
result or `none` when the content is not a recognizable image. -/

structure ProbeResult where
  ptype : String
  mime : String
  width : Nat
  height : Nat
deriving DecidableEq, Repr

structure S3Obj where
  contentLength : Option Nat
  body : String
deriving DecidableEq, Repr

structure S3 where
  objects : List (String × S3Obj)
deriving DecidableEq, Repr

def S3.get (s3 : S3) (key : String) : Option S3Obj :=
  (s3.objects.find? fun o => o.1 == key).map (·.2)

def S3.put (s3 : S3) (key : String) (obj : S3Obj) : S3 :=
  ⟨(key, obj) :: s3.objects.filter fun o => !(o.1 == key)⟩

def S3.delete (s3 : S3) (key : String) : S3 :=
  ⟨s3.objects.filter fun o => !(o.1 == key)⟩

/-- `CopyObjectCommand`: fails when the source object is absent, otherwise
writes a copy of it under the destination key. -/
def S3.copy (s3 : S3) (src dst : String) : Option S3 :=
  (s3.get src).map fun obj => s3.put dst obj

structure Env where
  freshId : Nat → String
  probe : String → Option ProbeResult
  s3WebEndpoint : String
  signUrl : String → String
  now : Nat

structure Session where
  userId : String
deriving DecidableEq, Repr

/-! ## `postRouter.create` -/

deriving instance DecidableEq for Except

inductive Err where
  | validation : String → Err
  | forbidden : String → Err
  | badRequest : String → Err
  | notFound : Err
  | s3Failure : Err
deriving DecidableEq, Repr

structure FileUpload where
  key : String
  ext : String
deriving DecidableEq, Repr

structure CreateInput where
  profileId : String
  inReplyToId : Option String
  reblogId : Option String
  content : Option String
  files : Option (List FileUpload)
deriving DecidableEq, Repr

/-- JavaScript truthiness of an optional string: `undefined` and the empty
string are falsy. -/
def truthy : Option String → Bool
  | none => false
  | some s => !s.isEmpty

/-- The zod input schema of `create`: up to 4 files, each with non-empty
`key` and `ext`, refined by `inReplyToId || reblogId || content ||
(files && files.length > 0)`. -/
def parseCreateInput (input : CreateInput) : Bool :=
  (match input.files with
   | none => true
   | some fs => fs.length ≤ 4 && fs.all fun u => !u.key.isEmpty && !u.ext.isEmpty)
  && (truthy input.inReplyToId || truthy input.reblogId || truthy input.content
      || (match input.files with
          | none => false
          | some fs => fs.length > 0))

/-- The permission check: a profile row with the given id owned by the
session's user. -/
def hasPermission (db : Db) (profileId userId : String) : Bool :=
  db.profiles.any fun p => p.id == profileId && p.userId == userId

/-- `tx.post.update({ where: { id }, data })`: Prisma throws when no row
matches the unique `where`. -/
def dbUpdatePost (db : Db) (pid : String) (f : PostRow → PostRow) : Option Db :=
  if db.posts.any fun p => p.id == pid then
    some { db with posts := db.posts.map fun p => if p.id == pid then f p else p }
  else
    none

/-- `if (input.inReplyToId) await tx.post.update(...)` (and the `reblogId`
twin): run the counter update only when the optional id is truthy. -/
def applyCounter (db : Db) (oid : Option String) (f : PostRow → PostRow) :
    Except Err Db :=
  if truthy oid then
    match dbUpdatePost db (oid.getD "") f with
    | some db1 => Except.ok db1
    | none => Except.error Err.notFound
  else
    Except.ok db

/-- The file-promotion loop of `create`: for each upload, copy the staged
object to `<uuid>.<ext>`, delete the staging object, re-fetch, probe, check
`!object.ContentLength || !fileType || upload.ext !== fileType.type`, then
persist a `File` row (width/height taken from the probe's height/width) and
an `Attachment` row.  Database writes are rolled back on failure by the
transaction wrapper, but object-store effects are not, so an error carries
the object store as mutated so far. -/
def promoteFiles (env : Env) (postId : String) :
    List FileUpload → Nat → Db → S3 → Except (Err × S3) (Db × S3 × Nat)
  | [], ctr, db, s3 => Except.ok (db, s3, ctr)
  | u :: rest, ctr, db, s3 =>
    match s3.copy u.key (env.freshId ctr ++ "." ++ u.ext) with
    | none => Except.error (Err.s3Failure, s3)
    | some s3a =>
      match (s3a.delete u.key).get (env.freshId ctr ++ "." ++ u.ext) with
      | none => Except.error (Err.s3Failure, s3a.delete u.key)
      | some obj =>
        match env.probe obj.body with
        | none =>
          Except.error (Err.badRequest "Invalid file uploaded.", s3a.delete u.key)
        | some ft =>
          if obj.contentLength.getD 0 == 0 || u.ext != ft.ptype then
            Except.error (Err.badRequest "Invalid file uploaded.", s3a.delete u.key)
          else
            promoteFiles env postId rest (ctr + 2)
              { db with
                files :=
                  { id := env.freshId (ctr + 1)
                    ftype := "IMAGE"
                    url := env.s3WebEndpoint ++ "/" ++ (env.freshId ctr ++ "." ++ u.ext)
                    mime := ft.mime
                    extension := u.ext
                    name := env.freshId ctr ++ "." ++ u.ext
                    size := obj.contentLength.getD 0
                    width := ft.height
                    height := ft.width } :: db.files
                attachments :=
                  { postId := postId, fileId := env.freshId (ctr + 1) } ::
                    db.attachments }
              (s3a.delete u.key)

structure CreateResult where
  isReblogged : Bool
  isFavorited : Bool
  post : HPost
deriving DecidableEq, Repr

/-- The body of the `$transaction` callback in `create`: permission check,
post insert, the two conditional counter increments, file promotion, and the
final hydrated re-read. -/
def createTxBody (env : Env) (sess : Session) (db : Db) (s3 : S3) (ctr : Nat)
    (input : CreateInput) : Except (Err × S3) (CreateResult × Db × S3) :=
  if !(hasPermission db input.profileId sess.userId) then
    Except.error (Err.forbidden "You do not have access to this profile.", s3)
  else
    match applyCounter
        { db with posts :=
            { id := env.freshId ctr
              profileId := input.profileId
              content := input.content
              inReplyToId := input.inReplyToId
              reblogId := input.reblogId
              repliesCount := 0
              reblogsCount := 0
              createdAt := env.now } :: db.posts }
        input.inReplyToId
        (fun p => { p with repliesCount := p.repliesCount + 1 }) with
    | Except.error e => Except.error (e, s3)
    | Except.ok db2 =>
      match applyCounter db2 input.reblogId
          (fun p => { p with reblogsCount := p.reblogsCount + 1 }) with
      | Except.error e => Except.error (e, s3)
      | Except.ok db3 =>
        match (match input.files with
               | none => Except.ok (db3, s3, ctr + 1)
               | some fs => promoteFiles env (env.freshId ctr) fs (ctr + 1) db3 s3) with
        | Except.error es => Except.error es
        | Except.ok (db4, s34, _) =>
          match db4.posts.find? fun p => p.id == env.freshId ctr with
          | none => Except.error (Err.notFound, s34)
          | some created =>
            Except.ok
              ({ isReblogged := false
                 isFavorited := false
                 post := hydrate db4 created }, db4, s34)

/-- `postRouter.create`: zod validation first (rejecting before any write),
then the transaction; when the body throws, the database reverts to its
initial state while object-store effects persist. -/
def createPost (env : Env) (sess : Session) (db : Db) (s3 : S3) (ctr : Nat)
    (input : CreateInput) : Except Err CreateResult × Db × S3 :=
  if !(parseCreateInput input) then
    (Except.error (Err.validation "Content, reblog, or files are required"), db, s3)
  else
    match createTxBody env sess db s3 ctr input with
    | Except.ok (r, db1, s31) => (Except.ok r, db1, s31)
    | Except.error (e, s31) => (Except.error e, db, s31)

/-! ## `postRouter.getByProfileId` -/

inductive ProfileFilter where
  | withReplies
  | media
deriving DecidableEq, Repr

/-- The `where` clause built by `getByProfileId`: by default
`{ inReplyToId: null }`, replaced by `{}` for `"with-replies"` and by
`{ attachments: { some: {} } }` for `"media"`, then merged with the
`profileId` condition. -/
def getByProfileIdWhere (db : Db) (filter : Option ProfileFilter)
    (profileId : String) (p : PostRow) : Bool :=
  (match filter with
   | none => p.inReplyToId == none
   | some ProfileFilter.withReplies => true
   | some ProfileFilter.media => db.attachments.any fun a => a.postId == p.id)
  && p.profileId == profileId

/-- `orderBy: [{ createdAt: "desc" }]`, modelled as sorting by descending
creation time. -/
def byCreatedAtDesc (a b : PostRow) : Prop :=
  b.createdAt ≤ a.createdAt

instance : DecidableRel byCreatedAtDesc := fun a b =>
  inferInstanceAs (Decidable (b.createdAt ≤ a.createdAt))

/-- `postRouter.getByProfileId`: filtered fetch with `postInclude`,
descending `createdAt` order, then the annotation pipeline with the
requested profile id as the viewer. -/
def getByProfileId (db : Db) (filter : Option ProfileFilter)
    (profileId : String) : List AnnotatedPost :=
  let rows := (db.posts.filter (getByProfileIdWhere db filter profileId)).insertionSort
    byCreatedAtDesc
  computeInteractions db (some profileId) (rows.map (hydrate db))

/-! ## `postRouter.createPresignedUrls` -/

structure SignedUrl where
  url : String
  key : String
deriving DecidableEq, Repr

/-- `createPresignedUrls`: zod rejects a count outside 1..4; otherwise the
loop draws `count` fresh keys and signs a put-URL for each. -/
def createPresignedUrls (env : Env) (ctr : Nat) (count : Nat) :
    Except Err (List SignedUrl) :=
  if 1 ≤ count ∧ count ≤ 4 then
    Except.ok ((List.range count).map fun i =>
      let key := env.freshId (ctr + i)
      { url := env.signUrl key, key := key })
  else
    Except.error (Err.validation "count out of range")

/-! ## General lemmas -/

lemma list_contains_iff {l : List String} {x : String} :
    l.contains x = true ↔ x ∈ l := by
  simp

lemma applyCounter_ok_spec (db : Db) (oid : Option String)
    (g : PostRow → PostRow) {db1 : Db}
    (h : applyCounter db oid g = Except.ok db1) :
    db1.files = db.files ∧ db1.attachments = db.attachments ∧
    db1.favorites = db.favorites ∧ db1.profiles = db.profiles ∧
    db1.follows = db.follows ∧
    (∀ q ∈ db.posts, q ∈ db1.posts ∨ g q ∈ db1.posts) ∧
    (∀ q ∈ db.posts, (∀ s, oid = some s → q.id ≠ s) → q ∈ db1.posts) ∧
    (∀ q ∈ db.posts, ∀ s, oid = some s → s.isEmpty = false → q.id = s →
      g q ∈ db1.posts) := by
  rw [applyCounter] at h
  by_cases ht : truthy oid = true
  · rw [if_pos ht] at h
    cases oid with
    | none => simp [truthy] at ht
    | some s =>
      rw [dbUpdatePost] at h
      by_cases ha : (db.posts.any fun p => p.id == Option.getD (some s) "") = true
      · rw [if_pos ha] at h
        injection h with h
        subst h
        refine ⟨rfl, rfl, rfl, rfl, rfl, ?_, ?_, ?_⟩
        · intro q hq
          have := List.mem_map_of_mem
            (fun p => if p.id == Option.getD (some s) "" then g p else p) hq
          by_cases hid : q.id = s
          · right
            simpa [hid] using this
          · left
            simpa [hid] using this
        · intro q hq hne
          have hid := hne s rfl
          have := List.mem_map_of_mem
            (fun p => if p.id == Option.getD (some s) "" then g p else p) hq
          simpa [hid] using this
        · intro q hq s2 hs2 hse hid
          injection hs2 with hs2
          subst hs2
          have := List.mem_map_of_mem
            (fun p => if p.id == Option.getD (some s) "" then g p else p) hq
          simpa [hid] using this
      · rw [if_neg ha] at h
        exact Except.noConfusion h
  · rw [if_neg ht] at h
    injection h with h
    subst h
    refine ⟨rfl, rfl, rfl, rfl, rfl, fun q hq => Or.inl hq, fun q hq _ => hq, ?_⟩
    intro q _ s hs hse _
    subst hs
    simp [truthy, hse] at ht

lemma applyCounter_exists_ok (db : Db) (oid : Option String)
    (g : PostRow → PostRow)
    (h : ∀ s, oid = some s → s.isEmpty = false → ∃ q ∈ db.posts, q.id = s) :
    ∃ db1, applyCounter db oid g = Except.ok db1 := by
  rw [applyCounter]
  by_cases ht : truthy oid = true
  · rw [if_pos ht]
    cases oid with
    | none => simp [truthy] at ht
    | some s =>
      have hse : s.isEmpty = false := by
        simpa [truthy] using ht
      obtain ⟨q, hq, hid⟩ := h s rfl hse
      rw [dbUpdatePost, if_pos]
      · exact ⟨_, rfl⟩
      · exact List.any_eq_true.mpr ⟨q, hq, by simp [Option.getD, hid]⟩
  · rw [if_neg ht]
    exact ⟨db, rfl⟩

lemma promoteFiles_ok_spec (env : Env) (postId : String) :
    ∀ (fs : List FileUpload) (ctr : Nat) (db : Db) (s3 : S3) (db2 : Db)
      (s32 : S3) (ctr2 : Nat),
    promoteFiles env postId fs ctr db s3 = Except.ok (db2, s32, ctr2) →
    db2.posts = db.posts ∧ db2.favorites = db.favorites ∧
    db2.profiles = db.profiles ∧ db2.follows = db.follows ∧
    db2.files.length = fs.length + db.files.length ∧
    db2.attachments.length = fs.length + db.attachments.length ∧
    (∀ a ∈ db2.attachments, a ∈ db.attachments ∨ a.postId = postId) ∧
    (∀ f ∈ db2.files, f ∈ db.files ∨
      ∃ b ft, env.probe b = some ft ∧ f.mime = ft.mime ∧
        f.width = ft.height ∧ f.height = ft.width) := by
  intro fs
  induction fs with
  | nil =>
    intro ctr db s3 db2 s32 ctr2 h
    rw [promoteFiles] at h
    injection h with h
    obtain ⟨h1, h2⟩ := Prod.mk.injEq .. ▸ h
    obtain ⟨h2, h3⟩ := Prod.mk.injEq .. ▸ h2
    subst h1
    refine ⟨rfl, rfl, rfl, rfl, by simp, by simp, fun a ha => Or.inl ha,
      fun f hf => Or.inl hf⟩
  | cons u rest ih =>
    intro ctr db s3 db2 s32 ctr2 h
    rw [promoteFiles] at h
    split at h
    · exact Except.noConfusion h
    · rename_i s3a hc
      split at h
      · exact Except.noConfusion h
      · rename_i obj hg
        split at h
        · exact Except.noConfusion h
        · rename_i ft hp
          split at h
          · exact Except.noConfusion h
          · obtain ⟨e1, e2, e3, e4, e5, e6, e7, e8⟩ :=
              ih (ctr + 2) _ _ db2 s32 ctr2 h
            refine ⟨e1, e2, e3, e4, by simp at e5 ⊢; omega,
              by simp at e6 ⊢; omega, ?_, ?_⟩
            · intro a ha
              rcases e7 a ha with ha2 | ha2
              · rcases List.mem_cons.mp ha2 with ha3 | ha3
                · right; rw [ha3]
                · exact Or.inl ha3
              · exact Or.inr ha2
            · intro f hf
              rcases e8 f hf with hf2 | hf2
              · rcases List.mem_cons.mp hf2 with hf3 | hf3
                · exact Or.inr ⟨obj.body, ft, hp, by rw [hf3], by rw [hf3],
                    by rw [hf3]⟩
                · exact Or.inl hf3
              · exact Or.inr hf2

lemma createTxBody_ok_spec (env : Env) (sess : Session) (db : Db) (s3 : S3)
    (ctr : Nat) (input : CreateInput) {r : CreateResult} {db4 : Db} {s34 : S3}
    (h : createTxBody env sess db s3 ctr input = Except.ok (r, db4, s34)) :
    (∃ p ∈ db4.posts, p.id = env.freshId ctr ∧ p.profileId = input.profileId ∧
      p.content = input.content ∧ p.inReplyToId = input.inReplyToId ∧
      p.reblogId = input.reblogId) ∧
    (∀ s, input.inReplyToId = some s → s.isEmpty = false →
      ∀ q ∈ db.posts, q.id = s →
        ∃ q2 ∈ db4.posts, q2.id = s ∧ q2.repliesCount = q.repliesCount + 1) ∧
    (∀ t, input.reblogId = some t → t.isEmpty = false →
      ∀ q ∈ db.posts, q.id = t →
        ∃ q2 ∈ db4.posts, q2.id = t ∧ q2.reblogsCount = q.reblogsCount + 1) ∧
    (∀ q ∈ db.posts, (∀ s, input.inReplyToId = some s → q.id ≠ s) →
      (∀ t, input.reblogId = some t → q.id ≠ t) → q ∈ db4.posts) ∧
    db4.files.length = db.files.length + (input.files.getD []).length ∧
    db4.attachments.length = db.attachments.length + (input.files.getD []).length ∧
    (∀ a ∈ db4.attachments, a ∈ db.attachments ∨ a.postId = env.freshId ctr) ∧
    (∀ f ∈ db4.files, f ∈ db.files ∨
      ∃ b ft, env.probe b = some ft ∧ f.mime = ft.mime ∧
        f.width = ft.height ∧ f.height = ft.width) := by
  rw [createTxBody] at h
  split at h
  · exact Except.noConfusion h
  · split at h
    · exact Except.noConfusion h
    · rename_i db2 hap1
      split at h
      · exact Except.noConfusion h
      · rename_i db3 hap2
        split at h
        · exact Except.noConfusion h
        · rename_i db4x s34x ctrx hfs
          split at h
          · exact Except.noConfusion h
          · rename_i created hfind
            injection h with h
            injection h with h1 h2
            injection h2 with h2 h3
            rw [h2, h3] at hfs
            have HF : db4.posts = db3.posts ∧
                db4.files.length =
                  db3.files.length + (input.files.getD []).length ∧
                db4.attachments.length =
                  db3.attachments.length + (input.files.getD []).length ∧
                (∀ a ∈ db4.attachments,
                  a ∈ db3.attachments ∨ a.postId = env.freshId ctr) ∧
                (∀ f ∈ db4.files, f ∈ db3.files ∨
                  ∃ b ft, env.probe b = some ft ∧ f.mime = ft.mime ∧
                    f.width = ft.height ∧ f.height = ft.width) := by
              split at hfs
              · rename_i hfnone
                injection hfs with hfs
                injection hfs with hf1 hf2
                subst hf1
                exact ⟨rfl, by simp [hfnone], by simp [hfnone],
                  fun a ha => Or.inl ha, fun f hf => Or.inl hf⟩
              · rename_i fs hfsome
                obtain ⟨p1, p2, p3, p4, p5, p6, p7, p8⟩ :=
                  promoteFiles_ok_spec env (env.freshId ctr) fs (ctr + 1)
                    db3 s3 db4 s34 ctrx hfs
                refine ⟨p1, ?_, ?_, p7, p8⟩
                · rw [p5, hfsome]
                  simp [Nat.add_comm]
                · rw [p6, hfsome]
                  simp [Nat.add_comm]
            obtain ⟨A1f, A1a, A1fav, A1p, A1fo, A1B, A1C, A1D⟩ :=
              applyCounter_ok_spec _ input.inReplyToId _ hap1
            obtain ⟨A2f, A2a, A2fav, A2p, A2fo, A2B, A2C, A2D⟩ :=
              applyCounter_ok_spec _ input.reblogId _ hap2
            obtain ⟨HFp, HFfl, HFal, HFa, HFf⟩ := HF
            refine ⟨?_, ?_, ?_, ?_, ?_, ?_, ?_, ?_⟩
            · rcases A1B _ (List.mem_cons_self _ _) with hx | hx <;>
                rcases A2B _ hx with hy | hy <;>
                exact ⟨_, by rw [HFp]; exact hy, rfl, rfl, rfl, rfl, rfl⟩
            · intro s hs hse q hq hid
              have h1 : _ ∈ db2.posts :=
                A1D q (List.mem_cons_of_mem _ hq) s hs hse hid
              rcases A2B _ h1 with hy | hy
              · exact ⟨{ q with repliesCount := q.repliesCount + 1 },
                  by rw [HFp]; exact hy, hid, rfl⟩
              · exact ⟨{ q with repliesCount := q.repliesCount + 1, reblogsCount := q.reblogsCount + 1 },
                  by rw [HFp]; exact hy, hid, rfl⟩
            · intro t ht hse q hq hid
              rcases A1B q (List.mem_cons_of_mem _ hq) with hx | hx
              · have h2 := A2D _ hx t ht hse hid
                exact ⟨{ q with reblogsCount := q.reblogsCount + 1 },
                  by rw [HFp]; exact h2, hid, rfl⟩
              · have h2 := A2D _ hx t ht hse hid
                exact ⟨{ q with repliesCount := q.repliesCount + 1, reblogsCount := q.reblogsCount + 1 },
                  by rw [HFp]; exact h2, hid, rfl⟩
            · intro q hq hne1 hne2
              have h1 := A1C q (List.mem_cons_of_mem _ hq) hne1
              have h2 := A2C q h1 hne2
              rw [HFp]
              exact h2
            · rw [HFfl, A2f, A1f]
            · rw [HFal, A2a, A1a]
            · intro a ha
              rcases HFa a ha with ha2 | ha2
              · rw [A2a, A1a] at ha2
                exact Or.inl ha2
              · exact Or.inr ha2
            · intro f hf
              rcases HFf f hf with hf2 | hf2
              · rw [A2f, A1f] at hf2
                exact Or.inl hf2
              · exact Or.inr hf2

lemma parse_false_of_not_true {input : CreateInput}
    (hv : ¬parseCreateInput input = true) : parseCreateInput input = false := by
  cases hpc : parseCreateInput input
  · rfl
  · exact absurd hpc hv

/-! ## Concrete test data for witnesses -/

def cEnv : Env :=
  { freshId := fun n => "fresh" ++ toString n
    probe := fun _ => none
    s3WebEndpoint := "https://cdn"
    signUrl := fun k => "https://s3/" ++ k
    now := 99 }

def cSess : Session := { userId := "user1" }

def emptyDb : Db :=
  { posts := [], files := [], attachments := [], favorites := [],
    profiles := [], follows := [] }

def emptyS3 : S3 := ⟨[]⟩

def c2P0 : HPost :=
  { id := "p1", profileId := "bob", content := some "x", inReplyToId := none
    reblogId := none, repliesCount := 0, reblogsCount := 0, createdAt := 0
    reblog := none }

def c2N1 : NestedPost :=
  { id := "p1", profileId := "bob", content := some "x", reblogId := none
    repliesCount := 0, reblogsCount := 0, createdAt := 0 }

def c2P1 : HPost :=
  { id := "p2", profileId := "bob", content := some "y", inReplyToId := none
    reblogId := some "p1", repliesCount := 0, reblogsCount := 0, createdAt := 1
    reblog := some c2N1 }

def c2Db : Db :=
  { posts := [{ id := "r1", profileId := "viewer", content := none
                inReplyToId := none, reblogId := some "p1", repliesCount := 0
                reblogsCount := 0, createdAt := 2 }]
    files := [], attachments := []
    favorites := [{ profileId := "viewer", postId := "p2" }]
    profiles := [], follows := [] }

def c2A0 : AnnotatedPost :=
  { isReblogged := true, isFavorited := false, post := c2P0, reblog := none }

/-! ## Claim theorems -/

/-- C2: for a viewer profile id, the annotation pipeline keeps the sequence
length and order of its input, and each output post's flags equal exact
membership of the post's id in the viewer's reblog-id set R and favorite
post-id set F; a present nested reblog target gets the same two flags for
its own id against the same sets. -/
theorem computeInteractions_flags (db : Db) (pid : String) (posts : List HPost) :
    (computeInteractions db (some pid) posts).length = posts.length ∧
    ∀ (i : Nat) (p : HPost) (a : AnnotatedPost), posts[i]? = some p →
      (computeInteractions db (some pid) posts)[i]? = some a →
      a.post = p ∧
      (a.isReblogged = true ↔ p.id ∈ viewerReblogIds db (some pid)) ∧
      (a.isFavorited = true ↔ p.id ∈ viewerFavoritePostIds db (some pid)) ∧
      ∀ (n : NestedPost), p.reblog = some n → ∃ an, a.reblog = some an ∧
        (an.isReblogged = true ↔ n.id ∈ viewerReblogIds db (some pid)) ∧
        (an.isFavorited = true ↔ n.id ∈ viewerFavoritePostIds db (some pid)) := by
  refine ⟨by simp [computeInteractions], ?_⟩
  intro i p a hp ha
  rw [computeInteractions, List.getElem?_map, hp, Option.map_some'] at ha
  cases ha
  refine ⟨rfl, list_contains_iff, list_contains_iff, ?_⟩
  intro n hn
  refine ⟨{ isReblogged := (viewerReblogIds db (some pid)).contains n.id
            isFavorited := (viewerFavoritePostIds db (some pid)).contains n.id
            reblog := none
            post := n }, ?_, list_contains_iff, list_contains_iff⟩
  rw [annotatePost]
  simp only [hn, Option.map_some']

theorem computeInteractions_flags_witness :
    c2A0.post = c2P0 ∧
    (c2A0.isReblogged = true ↔ c2P0.id ∈ viewerReblogIds c2Db (some "viewer")) ∧
    (c2A0.isFavorited = true ↔ c2P0.id ∈ viewerFavoritePostIds c2Db (some "viewer")) ∧
    ∀ n, c2P0.reblog = some n →
      ∃ an, c2A0.reblog = some an ∧
        (an.isReblogged = true ↔ n.id ∈ viewerReblogIds c2Db (some "viewer")) ∧
        (an.isFavorited = true ↔ n.id ∈ viewerFavoritePostIds c2Db (some "viewer")) :=
  (computeInteractions_flags c2Db "viewer" [c2P0, c2P1]).2 0 c2P0 c2A0
    (by decide) (by decide)

/-- C3 (divergence witness): with no viewer profile id the two Prisma
`where` clauses drop the profile condition, so the reblog and favorite sets
collect rows of every profile and the output flags can be `true`; they are
not the empty sets the specification describes. -/
theorem computeInteractions_absent_viewer_nonempty :
    viewerReblogIds c2Db none = ["p1"] ∧
    viewerFavoritePostIds c2Db none = ["p2"] ∧
    (computeInteractions c2Db none [c2P0, c2P1]).map
      (fun a => (a.isReblogged, a.isFavorited)) = [(true, false), (false, true)] := by
  decide

/-- C8: the nested annotation of an output post is `null` exactly when the
input post has no reblog target; a present target is annotated with the
target's fields, its two flags, and a `null` nested slot of its own. -/
theorem computeInteractions_nested (db : Db) (vid : Option String)
    (posts : List HPost) :
    ∀ (i : Nat) (p : HPost) (a : AnnotatedPost), posts[i]? = some p →
      (computeInteractions db vid posts)[i]? = some a →
      (a.reblog = none ↔ p.reblog = none) ∧
      ∀ (n : NestedPost), p.reblog = some n → ∃ an, a.reblog = some an ∧ an.post = n ∧
        an.reblog = none ∧
        an.isReblogged = (viewerReblogIds db vid).contains n.id ∧
        an.isFavorited = (viewerFavoritePostIds db vid).contains n.id := by
  intro i p a hp ha
  rw [computeInteractions, List.getElem?_map, hp, Option.map_some'] at ha
  cases ha
  constructor
  · rw [annotatePost]
    cases hn : p.reblog <;> simp [hn]
  · intro n hn
    refine ⟨{ isReblogged := (viewerReblogIds db vid).contains n.id
              isFavorited := (viewerFavoritePostIds db vid).contains n.id
              reblog := none
              post := n }, ?_, rfl, rfl, rfl, rfl⟩
    rw [annotatePost]
    simp only [hn, Option.map_some']

theorem computeInteractions_nested_witness :
    ((annotatePost (viewerReblogIds c2Db (some "viewer"))
        (viewerFavoritePostIds c2Db (some "viewer")) c2P1).reblog = none ↔
      c2P1.reblog = none) ∧
    ∀ n, c2P1.reblog = some n →
      ∃ an, (annotatePost (viewerReblogIds c2Db (some "viewer"))
          (viewerFavoritePostIds c2Db (some "viewer")) c2P1).reblog = some an ∧
        an.post = n ∧ an.reblog = none ∧
        an.isReblogged = (viewerReblogIds c2Db (some "viewer")).contains n.id ∧
        an.isFavorited = (viewerFavoritePostIds c2Db (some "viewer")).contains n.id :=
  computeInteractions_nested c2Db (some "viewer") [c2P0, c2P1] 1 c2P1
    (annotatePost (viewerReblogIds c2Db (some "viewer"))
      (viewerFavoritePostIds c2Db (some "viewer")) c2P1)
    (by decide) (by decide)

/-- C5: an input with no reply target, no reblog target, no content and no
(or an empty) file list fails the zod refinement, so `create` rejects it
before the transaction and leaves the database and the object store
untouched. -/
theorem create_empty_input_rejected (env : Env) (sess : Session) (db : Db)
    (s3 : S3) (ctr : Nat) (input : CreateInput)
    (h1 : input.inReplyToId = none) (h2 : input.reblogId = none)
    (h3 : input.content = none)
    (h4 : input.files = none ∨ input.files = some []) :
    createPost env sess db s3 ctr input =
      (Except.error (Err.validation "Content, reblog, or files are required"),
        db, s3) := by
  rcases h4 with h4 | h4 <;>
    simp [createPost, parseCreateInput, truthy, h1, h2, h3, h4]

theorem create_empty_input_rejected_witness :
    createPost cEnv cSess emptyDb emptyS3 0
        { profileId := "prof", inReplyToId := none, reblogId := none
          content := none, files := none } =
      (Except.error (Err.validation "Content, reblog, or files are required"),
        emptyDb, emptyS3) :=
  create_empty_input_rejected cEnv cSess emptyDb emptyS3 0 _ rfl rfl rfl
    (Or.inl rfl)

/-- C9: for a requested count within 1..4 and a fresh-key supply with no
repeats, `createPresignedUrls` returns exactly `count` entries, each pairing
a generated key with the signed put-URL for that key, and the keys are
pairwise distinct; a count outside 1..4 is rejected by validation. -/
theorem createPresignedUrls_spec (env : Env) (ctr count : Nat)
    (hnodup : ((List.range count).map fun i => env.freshId (ctr + i)).Nodup) :
    (1 ≤ count → count ≤ 4 →
      ∃ urls, createPresignedUrls env ctr count = Except.ok urls ∧
        urls.length = count ∧
        (∀ u ∈ urls, u.url = env.signUrl u.key) ∧
        (urls.map (·.key)).Nodup) ∧
    (count < 1 ∨ 4 < count →
      createPresignedUrls env ctr count =
        Except.error (Err.validation "count out of range")) := by
  constructor
  · intro h1 h2
    rw [createPresignedUrls, if_pos ⟨h1, h2⟩]
    refine ⟨_, rfl, by simp, ?_, ?_⟩
    · intro u hu
      rcases List.mem_map.mp hu with ⟨i, _, rfl⟩
      rfl
    · simpa [List.map_map, Function.comp] using hnodup
  · intro h
    rw [createPresignedUrls, if_neg (by omega)]

theorem createPresignedUrls_spec_witness :
    ∃ urls, createPresignedUrls cEnv 0 3 = Except.ok urls ∧
      urls.length = 3 ∧
      (∀ u ∈ urls, u.url = cEnv.signUrl u.key) ∧
      (urls.map (·.key)).Nodup :=
  (createPresignedUrls_spec cEnv 0 3 (by decide)).1 (by decide) (by decide)

def c1Db : Db :=
  { posts := [{ id := "P1", profileId := "prof1", content := some "root"
                inReplyToId := none, reblogId := none, repliesCount := 0
                reblogsCount := 0, createdAt := 5 }]
    files := [], attachments := [], favorites := []
    profiles := [{ id := "prof1", userId := "user1" }], follows := [] }

def c1Input : CreateInput :=
  { profileId := "prof1", inReplyToId := some "P1", reblogId := none
    content := some "hi", files := none }

def c1Result : CreateResult :=
  { isReblogged := false
    isFavorited := false
    post := { id := "fresh0", profileId := "prof1", content := some "hi"
              inReplyToId := some "P1", reblogId := none, repliesCount := 0
              reblogsCount := 0, createdAt := 99, reblog := none } }

def c1DbAfter : Db :=
  { posts := [{ id := "fresh0", profileId := "prof1", content := some "hi"
                inReplyToId := some "P1", reblogId := none, repliesCount := 0
                reblogsCount := 0, createdAt := 99 },
              { id := "P1", profileId := "prof1", content := some "root"
                inReplyToId := none, reblogId := none, repliesCount := 1
                reblogsCount := 0, createdAt := 5 }]
    files := [], attachments := [], favorites := []
    profiles := [{ id := "prof1", userId := "user1" }], follows := [] }

/-- C1: for an input passing the at-least-one-of rule, `create` either fully
commits — the new post row with the supplied fields, the reply/reblog
counter increments on the referenced rows, and one file plus one attachment
row per upload all present — or, on any failure inside the transaction, the
database reverts to its initial state. -/
theorem post_create_transactional (env : Env) (sess : Session) (db : Db)
    (s3 : S3) (ctr : Nat) (input : CreateInput)
    (hvalid : parseCreateInput input = true) :
    (∀ e db1 s31,
      createPost env sess db s3 ctr input = (Except.error e, db1, s31) →
      db1 = db) ∧
    (∀ r db1 s31,
      createPost env sess db s3 ctr input = (Except.ok r, db1, s31) →
      (∃ p ∈ db1.posts, p.id = env.freshId ctr ∧
        p.profileId = input.profileId ∧ p.content = input.content ∧
        p.inReplyToId = input.inReplyToId ∧ p.reblogId = input.reblogId) ∧
      (∀ s, input.inReplyToId = some s → s.isEmpty = false →
        ∀ q ∈ db.posts, q.id = s →
          ∃ q2 ∈ db1.posts, q2.id = s ∧
            q2.repliesCount = q.repliesCount + 1) ∧
      (∀ t, input.reblogId = some t → t.isEmpty = false →
        ∀ q ∈ db.posts, q.id = t →
          ∃ q2 ∈ db1.posts, q2.id = t ∧
            q2.reblogsCount = q.reblogsCount + 1) ∧
      db1.files.length = db.files.length + (input.files.getD []).length ∧
      db1.attachments.length =
        db.attachments.length + (input.files.getD []).length ∧
      (∀ a ∈ db1.attachments,
        a ∈ db.attachments ∨ a.postId = env.freshId ctr)) := by
  constructor
  · intro e db1 s31 heq
    rw [createPost, if_neg (by simp [hvalid])] at heq
    split at heq
    · rename_i r0 db10 s310 htx
      injection heq with ha hb
      exact Except.noConfusion ha
    · rename_i e0 s310 htx
      injection heq with ha hb
      injection hb with hb hc
      exact hb.symm
  · intro r db1 s31 heq
    rw [createPost, if_neg (by simp [hvalid])] at heq
    split at heq
    · rename_i r0 db10 s310 htx
      injection heq with ha hb
      injection hb with hb hc
      rw [hb] at htx
      obtain ⟨P1, P2, P3, P4, P5, P6, P7, P8⟩ :=
        createTxBody_ok_spec env sess db s3 ctr input htx
      exact ⟨P1, P2, P3, P5, P6, P7⟩
    · rename_i e0 s310 htx
      injection heq with ha hb
      exact Except.noConfusion ha

theorem post_create_transactional_witness :
    (∃ p ∈ c1DbAfter.posts, p.id = cEnv.freshId 0 ∧
      p.profileId = c1Input.profileId ∧ p.content = c1Input.content ∧
      p.inReplyToId = c1Input.inReplyToId ∧ p.reblogId = c1Input.reblogId) ∧
    (∀ s, c1Input.inReplyToId = some s → s.isEmpty = false →
      ∀ q ∈ c1Db.posts, q.id = s →
        ∃ q2 ∈ c1DbAfter.posts, q2.id = s ∧
          q2.repliesCount = q.repliesCount + 1) ∧
    (∀ t, c1Input.reblogId = some t → t.isEmpty = false →
      ∀ q ∈ c1Db.posts, q.id = t →
        ∃ q2 ∈ c1DbAfter.posts, q2.id = t ∧
          q2.reblogsCount = q.reblogsCount + 1) ∧
    c1DbAfter.files.length = c1Db.files.length + (c1Input.files.getD []).length ∧
    c1DbAfter.attachments.length =
      c1Db.attachments.length + (c1Input.files.getD []).length ∧
    (∀ a ∈ c1DbAfter.attachments,
      a ∈ c1Db.attachments ∨ a.postId = cEnv.freshId 0) :=
  (post_create_transactional cEnv cSess c1Db emptyS3 0 c1Input (by decide)).2
    c1Result c1DbAfter emptyS3 (by decide)

def c7Db : Db :=
  { posts := [{ id := "P1", profileId := "alice", content := some "orig"
                inReplyToId := none, reblogId := none, repliesCount := 0
                reblogsCount := 0, createdAt := 5 }]
    files := [], attachments := [], favorites := []
    profiles := [{ id := "prof1", userId := "user1" }], follows := [] }

def c7Input : CreateInput :=
  { profileId := "prof1", inReplyToId := none, reblogId := some "P1"
    content := none, files := none }

def c7Result : CreateResult :=
  { isReblogged := false
    isFavorited := false
    post := { id := "fresh0", profileId := "prof1", content := none
              inReplyToId := none, reblogId := some "P1", repliesCount := 0
              reblogsCount := 0, createdAt := 99
              reblog := some { id := "P1", profileId := "alice"
                               content := some "orig", reblogId := none
                               repliesCount := 0, reblogsCount := 1
                               createdAt := 5 } } }

def c7DbAfter : Db :=
  { posts := [{ id := "fresh0", profileId := "prof1", content := none
                inReplyToId := none, reblogId := some "P1", repliesCount := 0
                reblogsCount := 0, createdAt := 99 },
              { id := "P1", profileId := "alice", content := some "orig"
                inReplyToId := none, reblogId := none, repliesCount := 0
                reblogsCount := 1, createdAt := 5 }]
    files := [], attachments := [], favorites := []
    profiles := [{ id := "prof1", userId := "user1" }], follows := [] }

/-- C7: on a successful `create`, a truthy `reblogId` with no content yields
a stored post with null content and bumps exactly that target's
`reblogsCount` by one; symmetrically a truthy `inReplyToId` bumps that
target's `repliesCount` by one; and any pre-existing post referenced by
neither id is carried over entirely unchanged. -/
theorem post_create_counter_increments (env : Env) (sess : Session) (db : Db)
    (s3 : S3) (ctr : Nat) (input : CreateInput) (r : CreateResult) (db1 : Db)
    (s31 : S3)
    (h : createPost env sess db s3 ctr input = (Except.ok r, db1, s31)) :
    (∀ t, input.reblogId = some t → t.isEmpty = false → input.content = none →
      (∃ p ∈ db1.posts, p.id = env.freshId ctr ∧ p.content = none) ∧
      ∀ q ∈ db.posts, q.id = t →
        ∃ q2 ∈ db1.posts, q2.id = t ∧
          q2.reblogsCount = q.reblogsCount + 1) ∧
    (∀ s, input.inReplyToId = some s → s.isEmpty = false →
      ∀ q ∈ db.posts, q.id = s →
        ∃ q2 ∈ db1.posts, q2.id = s ∧
          q2.repliesCount = q.repliesCount + 1) ∧
    (∀ q ∈ db.posts, (∀ s, input.inReplyToId = some s → q.id ≠ s) →
      (∀ t, input.reblogId = some t → q.id ≠ t) → q ∈ db1.posts) := by
  by_cases hv : parseCreateInput input = true
  · rw [createPost, if_neg (by simp [hv])] at h
    split at h
    · rename_i r0 db10 s310 htx
      injection h with ha hb
      injection hb with hb hc
      rw [hb] at htx
      obtain ⟨P1, P2, P3, P4, _, _, _, _⟩ :=
        createTxBody_ok_spec env sess db s3 ctr input htx
      refine ⟨?_, P2, P4⟩
      intro t ht hse hcontent
      refine ⟨?_, fun q hq hid => P3 t ht hse q hq hid⟩
      obtain ⟨p, hp, e1, e2, e3, e4, e5⟩ := P1
      exact ⟨p, hp, e1, by rw [e3, hcontent]⟩
    · rename_i e0 s310 htx
      injection h with ha
      exact Except.noConfusion ha
  · rw [createPost, parse_false_of_not_true hv] at h
    simp at h

theorem post_create_counter_increments_witness :
    (∀ t, c7Input.reblogId = some t → t.isEmpty = false →
      c7Input.content = none →
      (∃ p ∈ c7DbAfter.posts, p.id = cEnv.freshId 0 ∧ p.content = none) ∧
      ∀ q ∈ c7Db.posts, q.id = t →
        ∃ q2 ∈ c7DbAfter.posts, q2.id = t ∧
          q2.reblogsCount = q.reblogsCount + 1) ∧
    (∀ s, c7Input.inReplyToId = some s → s.isEmpty = false →
      ∀ q ∈ c7Db.posts, q.id = s →
        ∃ q2 ∈ c7DbAfter.posts, q2.id = s ∧
          q2.repliesCount = q.repliesCount + 1) ∧
    (∀ q ∈ c7Db.posts, (∀ s, c7Input.inReplyToId = some s → q.id ≠ s) →
      (∀ t, c7Input.reblogId = some t → q.id ≠ t) → q ∈ c7DbAfter.posts) :=
  post_create_counter_increments cEnv cSess c7Db emptyS3 0 c7Input
    c7Result c7DbAfter emptyS3 (by decide)

def c6Env : Env :=
  { freshId := fun n => "fresh" ++ toString n
    probe := fun b =>
      if b == "PNGDATA" then
        some { ptype := "png", mime := "image/png", width := 10, height := 20 }
      else
        none
    s3WebEndpoint := "https://cdn"
    signUrl := fun k => k
    now := 7 }

def c6S3 : S3 := ⟨[("staged1", { contentLength := some 5, body := "PNGDATA" })]⟩

def c6Db : Db :=
  { posts := [], files := [], attachments := [], favorites := []
    profiles := [{ id := "prof1", userId := "user1" }], follows := [] }

def c6Input : CreateInput :=
  { profileId := "prof1", inReplyToId := none, reblogId := none
    content := none, files := some [{ key := "staged1", ext := "png" }] }

def c6FileRow : FileRow :=
  { id := "fresh2", ftype := "IMAGE", url := "https://cdn/fresh1.png"
    mime := "image/png", extension := "png", name := "fresh1.png", size := 5
    width := 20, height := 10 }

/-- C6: every file row present after a `create` call that was not already in
the database stems from a probe result and stores the probe's height in its
`width` column and the probe's width in its `height` column (the swap
performed by `tx.file.create`). -/
theorem post_create_file_dimensions (env : Env) (sess : Session) (db : Db)
    (s3 : S3) (ctr : Nat) (input : CreateInput) :
    ∀ f ∈ (createPost env sess db s3 ctr input).2.1.files,
      f ∈ db.files ∨
        ∃ b ft, env.probe b = some ft ∧ f.mime = ft.mime ∧
          f.width = ft.height ∧ f.height = ft.width := by
  intro f hf
  by_cases hv : parseCreateInput input = true
  · rw [createPost, if_neg (by simp [hv])] at hf
    split at hf
    · rename_i r0 db10 s310 htx
      obtain ⟨_, _, _, _, _, _, _, P8⟩ :=
        createTxBody_ok_spec env sess db s3 ctr input htx
      exact P8 f hf
    · rename_i e0 s310 htx
      exact Or.inl hf
  · rw [createPost, parse_false_of_not_true hv] at hf
    simp at hf
    exact Or.inl hf

theorem post_create_file_dimensions_witness :
    c6FileRow ∈ c6Db.files ∨
      ∃ b ft, c6Env.probe b = some ft ∧ c6FileRow.mime = ft.mime ∧
        c6FileRow.width = ft.height ∧ c6FileRow.height = ft.width :=
  post_create_file_dimensions c6Env cSess c6Db c6S3 0 c6Input c6FileRow
    (by decide)

lemma s3_get_put_delete (s3 : S3) (name key : String) (obj : S3Obj)
    (hne : name ≠ key) :
    ((s3.put name obj).delete key).get name = some obj := by
  have h1 : (name == key) = false := beq_eq_false_iff_ne.mpr hne
  rw [S3.put, S3.delete, S3.get]
  simp [List.filter_cons, h1]

/-- The file-promotion loop, run on this upload list from this counter and
object-store state, reaches an upload whose validation check
(`!object.ContentLength || !fileType || upload.ext !== fileType.type`)
fails: either the first upload's fetched object fails the check (`head`), or
the first upload passes it and the loop continues on the object store as
mutated by its copy-then-delete move (`step`).  The upload hitting the check
may therefore sit at any position of the list. -/
inductive PromoteHitsBad (env : Env) : List FileUpload → Nat → S3 → Prop where
  | head (u : FileUpload) (rest : List FileUpload) (ctr : Nat) (s3 : S3)
      (obj : S3Obj) :
      s3.get u.key = some obj →
      env.freshId ctr ++ "." ++ u.ext ≠ u.key →
      (obj.contentLength.getD 0 = 0 ∨ env.probe obj.body = none ∨
        ∀ ft, env.probe obj.body = some ft → u.ext ≠ ft.ptype) →
      PromoteHitsBad env (u :: rest) ctr s3
  | step (u : FileUpload) (rest : List FileUpload) (ctr : Nat) (s3 : S3)
      (obj : S3Obj) (ft : ProbeResult) :
      s3.get u.key = some obj →
      env.freshId ctr ++ "." ++ u.ext ≠ u.key →
      env.probe obj.body = some ft →
      obj.contentLength.getD 0 ≠ 0 →
      u.ext = ft.ptype →
      PromoteHitsBad env rest (ctr + 2)
        ((s3.put (env.freshId ctr ++ "." ++ u.ext) obj).delete u.key) →
      PromoteHitsBad env (u :: rest) ctr s3

lemma promoteFiles_hits_bad (env : Env) (postId : String) :
    ∀ (fs : List FileUpload) (ctr : Nat) (s3 : S3),
    PromoteHitsBad env fs ctr s3 →
    ∀ db : Db, ∃ s3x, promoteFiles env postId fs ctr db s3 =
      Except.error (Err.badRequest "Invalid file uploaded.", s3x) := by
  intro fs ctr s3 hbad
  induction hbad with
  | head u rest ctr s3 obj hobj hname hb =>
    intro db
    refine ⟨(s3.put (env.freshId ctr ++ "." ++ u.ext) obj).delete u.key, ?_⟩
    rw [promoteFiles, S3.copy, hobj]
    simp only [Option.map_some', s3_get_put_delete s3 _ u.key obj hname]
    rcases hb with hb | hb | hb
    · cases hpr : env.probe obj.body with
      | none => simp only [hpr]
      | some ft =>
        simp only [hpr]
        rw [if_pos (by simp [hb])]
    · simp only [hb]
    · cases hpr : env.probe obj.body with
      | none => simp only [hpr]
      | some ft =>
        have hne2 := hb ft hpr
        simp only [hpr]
        rw [if_pos (by simp [bne_iff_ne, hne2])]
  | step u rest ctr s3 obj ft hobj hname hprobe hcl hext hrec ih =>
    intro db
    obtain ⟨s3x, hx⟩ := ih
      { db with
        files :=
          { id := env.freshId (ctr + 1)
            ftype := "IMAGE"
            url := env.s3WebEndpoint ++ "/" ++ (env.freshId ctr ++ "." ++ u.ext)
            mime := ft.mime
            extension := u.ext
            name := env.freshId ctr ++ "." ++ u.ext
            size := obj.contentLength.getD 0
            width := ft.height
            height := ft.width } :: db.files
        attachments :=
          { postId := postId, fileId := env.freshId (ctr + 1) } ::
            db.attachments }
    refine ⟨s3x, ?_⟩
    rw [promoteFiles, S3.copy, hobj]
    simp only [Option.map_some', s3_get_put_delete s3 _ u.key obj hname, hprobe]
    rw [if_neg (by simp [hcl, hext])]
    exact hx

/-- C4: rollback on any error path (the final database is the initial one,
so no Post row survives), and whenever the promotion loop reaches an upload
— at any position of the list — whose fetched object is empty, unprobeable,
or probed to a type other than its declared extension, the whole call fails
with exactly the "Invalid file uploaded." error and the database portion
reverts. -/
theorem post_create_invalid_file (env : Env) (sess : Session) (db : Db)
    (s3 : S3) (ctr : Nat) (input : CreateInput) :
    (∀ e db1 s31,
      createPost env sess db s3 ctr input = (Except.error e, db1, s31) →
      db1 = db) ∧
    (∀ fs, input.files = some fs →
      parseCreateInput input = true →
      hasPermission db input.profileId sess.userId = true →
      (∀ s, input.inReplyToId = some s → s.isEmpty = false →
        ∃ q ∈ db.posts, q.id = s) →
      (∀ t, input.reblogId = some t → t.isEmpty = false →
        ∃ q ∈ db.posts, q.id = t) →
      PromoteHitsBad env fs (ctr + 1) s3 →
      ∃ s3x, createPost env sess db s3 ctr input =
        (Except.error (Err.badRequest "Invalid file uploaded."), db, s3x)) := by
  constructor
  · intro e db1 s31 heq
    by_cases hv : parseCreateInput input = true
    · rw [createPost, if_neg (by simp [hv])] at heq
      split at heq
      · rename_i r0 db10 s310 htx
        injection heq with ha hb
        exact Except.noConfusion ha
      · rename_i e0 s310 htx
        injection heq with ha hb
        injection hb with hb hc
        exact hb.symm
    · rw [createPost, parse_false_of_not_true hv] at heq
      simp at heq
      exact heq.2.1.symm
  · intro fs hfiles hvalid hperm hin hreb hhits
    obtain ⟨db2, hap1⟩ := applyCounter_exists_ok
      { db with posts :=
          { id := env.freshId ctr
            profileId := input.profileId
            content := input.content
            inReplyToId := input.inReplyToId
            reblogId := input.reblogId
            repliesCount := 0
            reblogsCount := 0
            createdAt := env.now } :: db.posts }
      input.inReplyToId
      (fun p => { p with repliesCount := p.repliesCount + 1 })
      (by
        intro s hs hse
        obtain ⟨q, hq, hid⟩ := hin s hs hse
        exact ⟨q, List.mem_cons_of_mem _ hq, hid⟩)
    obtain ⟨A1f, A1a, A1fav, A1p, A1fo, A1B, A1C, A1D⟩ :=
      applyCounter_ok_spec _ _ _ hap1
    obtain ⟨db3, hap2⟩ := applyCounter_exists_ok db2 input.reblogId
      (fun p => { p with reblogsCount := p.reblogsCount + 1 })
      (by
        intro t ht hse
        obtain ⟨q, hq, hid⟩ := hreb t ht hse
        rcases A1B q (List.mem_cons_of_mem _ hq) with hx | hx
        · exact ⟨q, hx, hid⟩
        · exact ⟨{ q with repliesCount := q.repliesCount + 1 }, hx, hid⟩)
    obtain ⟨s3x, hpf⟩ :=
      promoteFiles_hits_bad env (env.freshId ctr) fs (ctr + 1) s3 hhits db3
    have htx : createTxBody env sess db s3 ctr input =
        Except.error (Err.badRequest "Invalid file uploaded.", s3x) := by
      rw [createTxBody, if_neg (by simp [hperm])]
      simp only [hap1, hap2, hfiles, hpf]
    have hrun : createPost env sess db s3 ctr input =
        (Except.error (Err.badRequest "Invalid file uploaded."), db, s3x) := by
      rw [createPost, if_neg (by simp [hvalid])]
      simp only [htx]
    exact ⟨s3x, hrun⟩

def c4Env : Env :=
  { freshId := fun n => "fresh" ++ toString n
    probe := fun b =>
      if b == "PNGDATA" then
        some { ptype := "png", mime := "image/png", width := 10, height := 20 }
      else if b == "GIFDATA" then
        some { ptype := "gif", mime := "image/gif", width := 3, height := 4 }
      else
        none
    s3WebEndpoint := "https://cdn"
    signUrl := fun k => k
    now := 7 }

def c4S3 : S3 :=
  ⟨[("staged1", { contentLength := some 5, body := "PNGDATA" }),
    ("staged2", { contentLength := some 9, body := "GIFDATA" })]⟩

def c4Db : Db :=
  { posts := [], files := [], attachments := [], favorites := []
    profiles := [{ id := "prof1", userId := "user1" }], follows := [] }

def c4Input : CreateInput :=
  { profileId := "prof1", inReplyToId := none, reblogId := none
    content := none
    files := some [{ key := "staged1", ext := "png" },
                   { key := "staged2", ext := "png" }] }

theorem post_create_invalid_file_witness :
    ∃ s3x, createPost c4Env cSess c4Db c4S3 0 c4Input =
      (Except.error (Err.badRequest "Invalid file uploaded."), c4Db, s3x) :=
  (post_create_invalid_file c4Env cSess c4Db c4S3 0 c4Input).2
    [{ key := "staged1", ext := "png" }, { key := "staged2", ext := "png" }]
    rfl (by decide) (by decide)
    (by simp [c4Input])
    (by simp [c4Input])
    (PromoteHitsBad.step _ _ _ _
      { contentLength := some 5, body := "PNGDATA" }
      { ptype := "png", mime := "image/png", width := 10, height := 20 }
      (by decide) (by decide) (by decide) (by decide) (by decide)
      (PromoteHitsBad.head _ _ _ _
        { contentLength := some 9, body := "GIFDATA" }
        (by decide) (by decide)
        (Or.inr (Or.inr (by
          intro ft hft
          simp [c4Env] at hft
          rw [← hft]
          decide)))))

instance : IsTotal PostRow byCreatedAtDesc :=
  ⟨fun a b => le_total b.createdAt a.createdAt⟩

instance : IsTrans PostRow byCreatedAtDesc :=
  ⟨fun _ _ _ hab hbc => le_trans hbc hab⟩

def c10Db : Db :=
  { posts := [{ id := "a", profileId := "prof", content := some "root"
                inReplyToId := none, reblogId := none, repliesCount := 1
                reblogsCount := 0, createdAt := 1 },
              { id := "b", profileId := "prof", content := some "answer"
                inReplyToId := some "a", reblogId := none, repliesCount := 0
                reblogsCount := 0, createdAt := 2 },
              { id := "c", profileId := "other", content := some "noise"
                inReplyToId := none, reblogId := none, repliesCount := 0
                reblogsCount := 0, createdAt := 3 }]
    files := [], attachments := [{ postId := "a", fileId := "f1" }]
    favorites := [], profiles := [], follows := [] }

def c10A : AnnotatedPost :=
  { isReblogged := false
    isFavorited := false
    post := { id := "a", profileId := "prof", content := some "root"
              inReplyToId := none, reblogId := none, repliesCount := 1
              reblogsCount := 0, createdAt := 1, reblog := none }
    reblog := none }

/-- C10: with no filter every returned post is a reply-free post of the
requested profile; with "with-replies" every post of the profile (replies
included) is returned and nothing of another profile; with "media" every
returned post has at least one attachment and belongs to the profile; in
every case the results are ordered by descending creation time. -/
theorem getByProfileId_spec (db : Db) (pid : String) :
    (∀ a ∈ getByProfileId db none pid,
      a.post.inReplyToId = none ∧ a.post.profileId = pid) ∧
    (∀ p ∈ db.posts, p.profileId = pid →
      ∃ a ∈ getByProfileId db (some ProfileFilter.withReplies) pid,
        a.post = hydrate db p) ∧
    (∀ a ∈ getByProfileId db (some ProfileFilter.withReplies) pid,
      a.post.profileId = pid) ∧
    (∀ a ∈ getByProfileId db (some ProfileFilter.media) pid,
      (∃ att ∈ db.attachments, att.postId = a.post.id) ∧
      a.post.profileId = pid) ∧
    (∀ filt, List.Sorted (fun x y => y ≤ x)
      ((getByProfileId db filt pid).map fun a => a.post.createdAt)) := by
  refine ⟨?_, ?_, ?_, ?_, ?_⟩
  · intro a ha
    rw [getByProfileId, computeInteractions] at ha
    rcases List.mem_map.mp ha with ⟨hp, hhp, rfl⟩
    rcases List.mem_map.mp hhp with ⟨row, hrow, rfl⟩
    have hrow2 := List.mem_insertionSort byCreatedAtDesc |>.mp hrow
    obtain ⟨_, hcond⟩ := List.mem_filter.mp hrow2
    rw [getByProfileIdWhere] at hcond
    obtain ⟨h1, h2⟩ := Bool.and_eq_true .. ▸ hcond
    exact ⟨by simpa using h1, by simpa using h2⟩
  · intro p hp hpid
    have hmem : p ∈ db.posts.filter
        (getByProfileIdWhere db (some ProfileFilter.withReplies) pid) := by
      rw [List.mem_filter]
      exact ⟨hp, by simp [getByProfileIdWhere, hpid]⟩
    have hmem2 := (List.mem_insertionSort byCreatedAtDesc).mpr hmem
    refine ⟨annotatePost (viewerReblogIds db (some pid))
      (viewerFavoritePostIds db (some pid)) (hydrate db p), ?_, rfl⟩
    rw [getByProfileId, computeInteractions]
    exact List.mem_map_of_mem _ (List.mem_map_of_mem _ hmem2)
  · intro a ha
    rw [getByProfileId, computeInteractions] at ha
    rcases List.mem_map.mp ha with ⟨hp, hhp, rfl⟩
    rcases List.mem_map.mp hhp with ⟨row, hrow, rfl⟩
    have hrow2 := List.mem_insertionSort byCreatedAtDesc |>.mp hrow
    obtain ⟨_, hcond⟩ := List.mem_filter.mp hrow2
    rw [getByProfileIdWhere] at hcond
    obtain ⟨h1, h2⟩ := Bool.and_eq_true .. ▸ hcond
    simpa using h2
  · intro a ha
    rw [getByProfileId, computeInteractions] at ha
    rcases List.mem_map.mp ha with ⟨hp, hhp, rfl⟩
    rcases List.mem_map.mp hhp with ⟨row, hrow, rfl⟩
    have hrow2 := List.mem_insertionSort byCreatedAtDesc |>.mp hrow
    obtain ⟨_, hcond⟩ := List.mem_filter.mp hrow2
    rw [getByProfileIdWhere] at hcond
    obtain ⟨h1, h2⟩ := Bool.and_eq_true .. ▸ hcond
    refine ⟨?_, by simpa using h2⟩
    obtain ⟨att, hatt, hatt2⟩ := List.any_eq_true.mp h1
    exact ⟨att, hatt, by simpa using hatt2⟩
  · intro filt
    rw [getByProfileId, computeInteractions]
    rw [List.map_map, List.map_map]
    refine List.Pairwise.map _ ?_
      (List.sorted_insertionSort byCreatedAtDesc
        (db.posts.filter (getByProfileIdWhere db filt pid)))
    intro a b hr
    exact hr

theorem getByProfileId_spec_witness :
    c10A.post.inReplyToId = none ∧ c10A.post.profileId = "prof" :=
  (getByProfileId_spec c10Db "prof").1 c10A (by decide)

end Gibber
